import Mathlib

/-!
Verification of the sf-chain repository's chain engine.

The development is a shallow embedding of the TypeScript sources:
`src/result.ts` (the Result cell and error normalization), `src/core.ts`
(the `SafeChainImpl` chain engine with its `next` primitive and the
operator surface), `src/pipe.ts` (the raw-transform pipeline builder),
and the historical revision of the engine and the transformer-based
pipeline builder found elsewhere in the repository (the `ResultChain`
class with `tapError`, and the per-operator helper constructors feeding
its `safePipe`).

JavaScript runs the engine on a single cooperative timeline: every
pending promise eventually settles before a terminal result is
observed, and each stage runs only after its predecessor settled.  A
chain is therefore modelled by its settled `Result` together with a
`deferred` flag recording whether the chain carries a pending handle
(`this.promise`).  A user callback is modelled by the `Outcome` it
produces when invoked: it returns a plain value, returns a thenable
(which later resolves or rejects), or throws.  Error objects are
modelled by their message, which is exactly the data the engine's
`normalizeError` reads and produces.

To reason about which user callbacks are invoked (several spec claims
are about callbacks never running), every operator also returns the
list of user-callback invocations it performed, each recorded with the
argument it passed.
-/

namespace SfChain

mutual

/-- JavaScript values as far as the chain engine inspects them: the
engine distinguishes thenables (modelled separately by `Outcome`),
`Error` instances (carried by their `message`), functions (relevant to
the `safe` dispatcher's `isFunction` branch; a function value carries
its source text, read by `String(...)` coercion, and the outcome of its
single execution), and everything else, which it treats opaquely apart
from `String(...)` coercion. -/
inductive JSVal where
  | undef
  | boolean (b : Bool)
  | num (n : Int)
  | str (s : String)
  | error (msg : String)
  | func (src : String) (call : Outcome)
deriving DecidableEq

/-- A thenable (deferred value) as the engine sees it once it settles:
it either resolves with a value or rejects with a reason. -/
inductive Deferred where
  | resolves (v : JSVal)
  | rejects (e : JSVal)
deriving DecidableEq

/-- The outcome of invoking a callback handed to the engine's `next`
(or of executing a function): it returns a plain value, returns a
thenable, or throws. -/
inductive Outcome where
  | ret (v : JSVal)
  | retD (d : Deferred)
  | thrown (e : JSVal)
deriving DecidableEq

end

/-- JavaScript `String(v)` for the modelled values.  `String` on an
`Error` uses `Error.prototype.toString`: `"Error: " + message`, or just
`"Error"` when the message is empty; `String` on a function yields the
function's source text. -/
def jsToString : JSVal → String
  | JSVal.undef => "undefined"
  | JSVal.boolean true => "true"
  | JSVal.boolean false => "false"
  | JSVal.num n => toString n
  | JSVal.str s => s
  | JSVal.error m => if m = "" then "Error" else "Error: " ++ m
  | JSVal.func src _ => src

/-- The `Result<T>` tagged union of `src/result.ts`: either a success
value or a failure.  `SafeResult.fail` normalizes every recorded
failure with `normalizeError`, which guarantees the stored error is an
`Error` object; the stored error is therefore represented by its
message. -/
inductive Result where
  | ok (value : JSVal)
  | err (msg : String)
deriving DecidableEq

/-- `SafeResult.normalizeError` of `src/result.ts`, returning the
message of the normalized `Error`: an `Error` instance passes through
unchanged (same message), any other value is wrapped by
`new Error(String(value))`. -/
def normMsg : JSVal → String
  | JSVal.error m => m
  | v => jsToString v

/-- How `instance.promise = next.then((v) => instance.result.ok(v),
(e) => instance.result.fail(e))` records a settled thenable into the
new chain's own result cell. -/
def settle : Deferred → Result
  | Deferred.resolves v => Result.ok v
  | Deferred.rejects e => Result.err (normMsg e)

/-- The result eventually recorded for a callback outcome: a returned
value is stored with `ok`, a returned thenable is awaited and then
stored via `settle`, a thrown value is stored with `fail` (normalized).
This is the common shape of both branches of `next`. -/
def outcomeResult : Outcome → Result
  | Outcome.ret v => Result.ok v
  | Outcome.retD d => settle d
  | Outcome.thrown e => Result.err (normMsg e)

/-- A chain (`SafeChainImpl` of `src/core.ts`): its eventually-settled
result plus whether the instance carries a pending handle
(`this.promise !== undefined`).  A chain with `deferred = true` hands
out awaitable terminal results; its `result` field is what the handle
settles to. -/
structure Chain where
  result : Result
  deferred : Bool
deriving DecidableEq

/-- The engine primitive `SafeChainImpl.next` (`src/core.ts` lines
137-170).  If the current chain has a pending handle, the callback is
scheduled after that handle settles (the handle itself never rejects,
since it was produced by a two-handler `then`), runs on the settled
result, and whatever it produces is captured into the new chain's own
pending handle — the new chain is deferred.  If the current chain is
resolved, the callback runs synchronously: a thrown value is normalized
and installed immediately, a returned thenable installs a pending
handle, and a plain return is installed as an immediate success. -/
def next (c : Chain) (cb : Result → Outcome) : Chain :=
  if c.deferred then
    { result := outcomeResult (cb c.result), deferred := true }
  else
    match cb c.result with
    | Outcome.ret v => { result := Result.ok v, deferred := false }
    | Outcome.retD d => { result := settle d, deferred := true }
    | Outcome.thrown e => { result := Result.err (normMsg e), deferred := false }

/-- A record of one user-callback invocation performed by an operator,
together with the argument the engine passed to it. -/
inductive CallArg where
  | val (v : JSVal)
  | res (r : Result)
  | errArg (e : JSVal)
deriving DecidableEq

/-- `next` with invocation tracking: the callback additionally reports
the user-callback invocations it performed.  `next` invokes its
callback exactly once, on the settled result, in both branches. -/
def nextT (c : Chain) (cb : Result → Outcome × List CallArg) : Chain × List CallArg :=
  (next c (fun r => (cb r).1), (cb c.result).2)

/-- `SafeChainImpl.map` (`src/core.ts` lines 172-179): on an error
result the stored error is rethrown without invoking the transform; on
a success the transform is invoked with the value and its outcome
becomes the new state. -/
def mapT (f : JSVal → Outcome) (c : Chain) : Chain × List CallArg :=
  nextT c (fun r =>
    match r with
    | Result.err m => (Outcome.thrown (JSVal.error m), [])
    | Result.ok v => (f v, [CallArg.val v]))

/-- What a `flatMap` transform produces when invoked: it returns a
chain, or throws before returning one. -/
inductive FmRes where
  | chain (c : Chain)
  | thrown (e : JSVal)

/-- `unwrap` viewed as the outcome of `return chain.unwrap()` inside
`flatMap`'s callback: a resolved chain returns its value or throws its
stored error synchronously; a deferred chain returns a promise that
resolves with the value or rejects with the stored error. -/
def unwrapOutcome (c : Chain) : Outcome :=
  if c.deferred then
    Outcome.retD
      (match c.result with
       | Result.ok v => Deferred.resolves v
       | Result.err m => Deferred.rejects (JSVal.error m))
  else
    match c.result with
    | Result.ok v => Outcome.ret v
    | Result.err m => Outcome.thrown (JSVal.error m)

/-- `SafeChainImpl.flatMap` (`src/core.ts` lines 181-192): rethrows a
stored error without invoking the transform; otherwise invokes the
transform and returns `chain.unwrap()` of the chain it produced (the
transform may itself throw first). -/
def flatMapT (f : JSVal → FmRes) (c : Chain) : Chain × List CallArg :=
  nextT c (fun r =>
    match r with
    | Result.err m => (Outcome.thrown (JSVal.error m), [])
    | Result.ok v =>
      (match f v with
       | FmRes.thrown e => Outcome.thrown e
       | FmRes.chain ch => unwrapOutcome ch,
       [CallArg.val v]))

/-- One run of a consumer handed to `tap`: the outcome it produces
(return, thenable, or throw), the field state of the result object it
was handed when it returns (a consumer may mutate that object), and the
user-callback invocations performed inside it. -/
structure CRun where
  outcome : Outcome
  objAfter : Result
  calls : List CallArg

/-- `SafeChainImpl.tap` (`src/core.ts` lines 194-205):
`try { consumer({ ...result }) } catch {}` hands the consumer a shallow
copy of the result object and swallows both the consumer's outcome and
any exception; the continuation then reads `result` — the engine's own
object, never the copy, so `run.outcome` and `run.objAfter` are
discarded — rethrowing a stored error and passing a value through. -/
def tapT (cf : Result → CRun) (c : Chain) : Chain × List CallArg :=
  nextT c (fun result =>
    let run := cf result
    (match result with
     | Result.err m => Outcome.thrown (JSVal.error m)
     | Result.ok v => Outcome.ret v,
     run.calls))

/-- `SafeChainImpl.effect` (`src/core.ts` lines 207-220): rethrows a
stored error without invoking `effectFn`; on a success invokes
`effectFn(value)` — a thrown error propagates; a returned thenable is
turned into `v.then(() => result.value)`, which resolves with the
original value or propagates the rejection; a plain return is dropped
and the original value returned. -/
def effectT (f : JSVal → Outcome) (c : Chain) : Chain × List CallArg :=
  nextT c (fun r =>
    match r with
    | Result.err m => (Outcome.thrown (JSVal.error m), [])
    | Result.ok v =>
      (match f v with
       | Outcome.ret _ => Outcome.ret v
       | Outcome.thrown e => Outcome.thrown e
       | Outcome.retD (Deferred.resolves _) => Outcome.retD (Deferred.resolves v)
       | Outcome.retD (Deferred.rejects e) => Outcome.retD (Deferred.rejects e),
       [CallArg.val v]))

/-- `SafeChainImpl.ifOk` (`src/core.ts` lines 222-229): the deprecated
alias delegates to `effect` (`return this.effect(consumer)`). -/
def ifOkT (f : JSVal → Outcome) (c : Chain) : Chain × List CallArg :=
  effectT f c

/-- `SafeChainImpl.ifError` (`src/core.ts` lines 231-236): the
deprecated alias delegates to `tap` with the filtering lambda
`(result) => { if (result.isError) consumer(result.error) }`.  On an
error result the lambda invokes the user consumer with the stored error
(the lambda itself returns `undefined`, or throws whatever the consumer
threw); on a success the user consumer is not invoked. -/
def ifErrorT (uc : JSVal → Outcome) (c : Chain) : Chain × List CallArg :=
  tapT (fun result =>
    match result with
    | Result.err m =>
      { outcome :=
          match uc (JSVal.error m) with
          | Outcome.thrown e => Outcome.thrown e
          | _ => Outcome.ret JSVal.undef,
        objAfter := result,
        calls := [CallArg.errArg (JSVal.error m)] }
    | Result.ok _ =>
      { outcome := Outcome.ret JSVal.undef, objAfter := result, calls := [] }) c

/-- `ResultChain.tapError` from the historical engine revision in the
repository: on an error result, `try { consumer(result.error) } catch`
invokes the consumer with the stored error and swallows its outcome,
then `throw result.error` re-raises the stored error; on a success the
consumer is not invoked and the value passes through. -/
def tapErrorT (uc : JSVal → Outcome) (c : Chain) : Chain × List CallArg :=
  nextT c (fun r =>
    match r with
    | Result.err m =>
      let _run := uc (JSVal.error m)
      (Outcome.thrown (JSVal.error m), [CallArg.errArg (JSVal.error m)])
    | Result.ok v => (Outcome.ret v, []))

/-- `SafeChainImpl.recover` (`src/core.ts` lines 238-249): on an error
result the handler is invoked with the stored error and its outcome
becomes the new state; a success value passes through untouched without
invoking the handler. -/
def recoverT (h : JSVal → Outcome) (c : Chain) : Chain × List CallArg :=
  nextT c (fun r =>
    match r with
    | Result.err m => (h (JSVal.error m), [CallArg.errArg (JSVal.error m)])
    | Result.ok v => (Outcome.ret v, []))

/-- The result of `isOk()`/`isError()`: an immediate boolean on a
resolved chain, a promise of a boolean (`later`) on a deferred one. -/
inductive TerminalBool where
  | now (b : Bool)
  | later (b : Bool)
deriving DecidableEq

/-- Whether a terminal boolean must be awaited. -/
def TerminalBool.isLaterB : TerminalBool → Bool
  | TerminalBool.later _ => true
  | TerminalBool.now _ => false

/-- `Result.isError` as a boolean. -/
def Result.isErrorB : Result → Bool
  | Result.err _ => true
  | Result.ok _ => false

/-- `SafeChainImpl.isOk` (`src/core.ts` lines 251-262): with a pending
handle it returns a promise that awaits the handle and reads
`!isError`; otherwise it returns the boolean immediately. -/
def isOkR (c : Chain) : TerminalBool :=
  if c.deferred then TerminalBool.later (!c.result.isErrorB)
  else TerminalBool.now (!c.result.isErrorB)

/-- `SafeChainImpl.isError` (`src/core.ts` lines 264-275): symmetric to
`isOk`. -/
def isErrorR (c : Chain) : TerminalBool :=
  if c.deferred then TerminalBool.later c.result.isErrorB
  else TerminalBool.now c.result.isErrorB

/-- The result of `unwrap()`: an immediate value, a synchronously
thrown error, or (for a deferred chain) a promise that resolves with
the value or rejects with the stored error. -/
inductive UnwrapR where
  | now (v : JSVal)
  | thrownNow (e : JSVal)
  | later (d : Deferred)
deriving DecidableEq

/-- Whether an unwrap result must be awaited. -/
def UnwrapR.isLaterB : UnwrapR → Bool
  | UnwrapR.later _ => true
  | _ => false

/-- `SafeChainImpl.unwrap` (`src/core.ts` lines 277-290): with a
pending handle it returns a promise that awaits the handle then throws
the stored error or returns the value; otherwise it throws or returns
synchronously. -/
def unwrapR (c : Chain) : UnwrapR :=
  if c.deferred then
    UnwrapR.later
      (match c.result with
       | Result.ok v => Deferred.resolves v
       | Result.err m => Deferred.rejects (JSVal.error m))
  else
    match c.result with
    | Result.ok v => UnwrapR.now v
    | Result.err m => UnwrapR.thrownNow (JSVal.error m)

/-- `new SafeChainImpl()`: result cell `SafeResult.ofOk(undefined)`,
    no pending handle. -/
def emptyChainImpl : Chain :=
  { result := Result.ok JSVal.undef, deferred := false }

/-- `safeValue` (`src/core.ts` lines 313-322): a fresh chain mapped
through `() => value`.  The surrounding `try/catch` is unreachable
because `map` never throws (its `next` captures everything), so it is
not modelled. -/
def safeValue (v : JSVal) : Chain :=
  (mapT (fun _ => Outcome.ret v) emptyChainImpl).1

/-- `safeExec` (`src/core.ts` lines 324-333): a fresh chain mapped
through `() => fn()`.  The argument models the single execution of
`fn`: what it returns (plain or thenable) or throws.  The surrounding
`try/catch` is unreachable as in `safeValue`. -/
def safeExec (o : Outcome) : Chain :=
  (mapT (fun _ => o) emptyChainImpl).1

/-- `safeEmpty` (`src/core.ts` lines 335-337): `safeValue(undefined)`. -/
def safeEmpty : Chain :=
  safeValue JSVal.undef

/-- The `safe` dispatcher (`src/index.ts`): `safeEmpty()` for
`undefined`; for a function (`isFunction(init)`), `safeExec(init)`,
which executes it once and captures its outcome; `safeValue` for every
other value. -/
def safe : JSVal → Chain
  | JSVal.undef => safeEmpty
  | JSVal.func _ call => safeExec call
  | v => safeValue v

/-- The `map` per-operator helper constructor of the transformer-based
pipeline module: `(chain) => chain.map(transform)`. -/
def pipeMap (f : JSVal → Outcome) : Chain → Chain :=
  fun chain => (mapT f chain).1

/-- `safePipe` of `src/pipe.ts` (lines 68-78): builds
`(input) => transformers.reduce((chain, t) => chain.map(t), safeValue(input))`,
folding the raw transform functions through `map`, left to right. -/
def safePipeV1 (fs : List (JSVal → Outcome)) (input : JSVal) : Chain :=
  fs.foldl (fun chain f => (mapT f chain).1) (safeValue input)

/-- The historical `safePipe` of the transformer-based pipeline module:
builds `(input) => transformers.slice(1).reduce((chain, t) => t(chain),
transformers[0](safe(input)))`.  With an empty transformer list,
`transformers[0]` is `undefined` and invoking it throws a `TypeError`
out of the returned closure instead of producing a chain; that case is
modelled as `none`. -/
def safePipeV2 (ts : List (Chain → Chain)) (input : JSVal) : Option Chain :=
  match ts with
  | [] => none
  | t :: rest => some (rest.foldl (fun chain tr => tr chain) (t (safe input)))

/-- A value-affecting operator invocation, for reasoning about
sequences of `map`/`flatMap`/`effect` calls on one chain lineage. -/
inductive ChainOp where
  | mapOp (f : JSVal → Outcome)
  | flatMapOp (f : JSVal → FmRes)
  | effectOp (f : JSVal → Outcome)

/-- Apply one operator with invocation tracking. -/
def applyOpT (c : Chain) : ChainOp → Chain × List CallArg
  | ChainOp.mapOp f => mapT f c
  | ChainOp.flatMapOp f => flatMapT f c
  | ChainOp.effectOp f => effectT f c

/-- Apply a sequence of operators left to right, concatenating the
user-callback invocation logs. -/
def applyOpsT : Chain → List ChainOp → Chain × List CallArg
  | c, [] => (c, [])
  | c, op :: rest =>
    ((applyOpsT (applyOpT c op).1 rest).1,
     (applyOpT c op).2 ++ (applyOpsT (applyOpT c op).1 rest).2)

/-- A plain observer handed to `tap`: when invoked it records the
result snapshot it received and returns `undefined` without mutating
the copy. -/
def resultObserver : Result → CRun :=
  fun r => { outcome := Outcome.ret JSVal.undef, objAfter := r, calls := [CallArg.res r] }

/- ------------------------------------------------------------------ -/
/- Helper lemmas                                                      -/
/- ------------------------------------------------------------------ -/

/-- `tap` returns a chain equal to its input: the stored result and the
deferred state are both preserved, for every consumer. -/
theorem tapT_fst (cf : Result → CRun) (c : Chain) : (tapT cf c).1 = c := by
  rcases c with ⟨r, dfr⟩
  rcases r with v | m <;> cases dfr <;> rfl

/-- On an error-state chain, every value-affecting operator preserves
the chain exactly and invokes no user callback. -/
theorem applyOpT_err (m : String) (dfr : Bool) (op : ChainOp) :
    applyOpT { result := Result.err m, deferred := dfr } op
      = ({ result := Result.err m, deferred := dfr }, []) := by
  cases op <;> cases dfr <;> rfl

/-- On an error-state chain, every sequence of value-affecting
operators preserves the chain exactly and invokes no user callback. -/
theorem applyOpsT_err (m : String) (dfr : Bool) (ops : List ChainOp) :
    applyOpsT { result := Result.err m, deferred := dfr } ops
      = ({ result := Result.err m, deferred := dfr }, []) := by
  induction ops with
  | nil => rfl
  | cons op rest ih =>
    simp [applyOpsT, applyOpT_err, ih]

/-- The dispatcher `safe` agrees with `safeValue` on every value that
is not a function: `safeEmpty` is `safeValue(undefined)`, and the
remaining non-function branches dispatch to `safeValue` directly.  On
a function value the two differ: `safe` executes it via `safeExec`. -/
theorem safe_eq_safeValue (v : JSVal) (hv : ∀ src call, v ≠ JSVal.func src call) :
    safe v = safeValue v := by
  cases v with
  | undef => rfl
  | boolean b => rfl
  | num n => rfl
  | str s => rfl
  | error m => rfl
  | func src call => exact absurd rfl (hv src call)

/-- Folding the `pipeMap`-built transformers over a chain is folding
the raw transforms through `map`. -/
theorem foldl_pipeMap (fs : List (JSVal → Outcome)) (c : Chain) :
    (fs.map pipeMap).foldl (fun chain tr => tr chain) c
      = fs.foldl (fun chain f => (mapT f chain).1) c := by
  induction fs generalizing c with
  | nil => rfl
  | cons f rest ih => simpa using ih ((mapT f c).1)

/- ------------------------------------------------------------------ -/
/- Claim theorems                                                     -/
/- ------------------------------------------------------------------ -/

/-- C1 counterexample: the chain built by wrapping the literal value 2
and applying `map(x => x*2)` then `map(x => x+3)` does not yield `13`
from the terminal `unwrap()` — the computation is `2 * 2 + 3`. -/
theorem claim1_counterexample :
    unwrapR
      (mapT (fun x =>
          match x with
          | JSVal.num n => Outcome.ret (JSVal.num (n + 3))
          | v => Outcome.ret v)
        ((mapT (fun x =>
            match x with
            | JSVal.num n => Outcome.ret (JSVal.num (n * 2))
            | v => Outcome.ret v)
          (safeValue (JSVal.num 2))).1)).1
      ≠ UnwrapR.now (JSVal.num 13) := by
  decide

/-- C1 (amended): the chain built by wrapping the literal value 2 and
applying `map(x => x*2)` then `map(x => x+3)` yields `7` from the
terminal `unwrap()`, synchronously. -/
theorem claim1_literal_two_map_map_unwrap :
    unwrapR
      (mapT (fun x =>
          match x with
          | JSVal.num n => Outcome.ret (JSVal.num (n + 3))
          | v => Outcome.ret v)
        ((mapT (fun x =>
            match x with
            | JSVal.num n => Outcome.ret (JSVal.num (n * 2))
            | v => Outcome.ret v)
          (safeValue (JSVal.num 2))).1)).1
      = UnwrapR.now (JSVal.num 7) := by
  decide

/-- C2: for every chain and every callback, the deprecated alias
`ifOk` behaves identically to `effect`, and the deprecated alias
`ifError` behaves identically to `tapError` — same resulting chain and
the same user-callback invocations — and `ifError` is distinguishable
from the ok/err-inspecting `tap`, whose observer is also invoked on a
success chain. -/
theorem claim2_deprecated_aliases (uc f : JSVal → Outcome) (c : Chain) :
    ifErrorT uc c = tapErrorT uc c
      ∧ ifOkT f c = effectT f c
      ∧ (ifErrorT uc (safeValue (JSVal.num 1))).2
          ≠ (tapT resultObserver (safeValue (JSVal.num 1))).2 := by
  refine ⟨?_, rfl, ?_⟩
  · rcases c with ⟨r, dfr⟩
    rcases r with v | m <;> cases dfr <;> rfl
  · intro h
    have h' : ([] : List CallArg) = [CallArg.res (Result.ok (JSVal.num 1))] := h
    exact List.noConfusion h'

/-- C3 counterexample: the two pipeline builders do not produce chains
with identical outcomes for every input and every transform list.
With the empty transform list the raw-transform variant returns the
wrapped input, while the transformer-folding variant invokes
`transformers[0]`, which is `undefined`, and throws a `TypeError`
instead of producing a chain.  And for a function input (here
`() => 42` with the identity transform) the raw-transform variant
starts from `safeValue(input)`, wrapping the function itself as the
chain's value, while the transformer-folding variant starts from
`safe(input)`, whose `isFunction` branch executes the function, so the
chains hold different values. -/
theorem claim3_counterexample :
    (safePipeV2 (List.map pipeMap ([] : List (JSVal → Outcome))) (JSVal.num 0) = none
      ∧ safePipeV1 [] (JSVal.num 0)
          = { result := Result.ok (JSVal.num 0), deferred := false })
      ∧ safePipeV2 (List.map pipeMap [fun x => Outcome.ret x])
            (JSVal.func "() => 42" (Outcome.ret (JSVal.num 42)))
          ≠ some (safePipeV1 [fun x => Outcome.ret x]
            (JSVal.func "() => 42" (Outcome.ret (JSVal.num 42)))) := by
  refine ⟨⟨rfl, rfl⟩, ?_⟩
  decide

/-- C3 (amended): for every non-function input value and every
nonempty list of one-argument transform functions, the two historical
pipeline builders — the variant folding raw transforms through `map`,
and the variant folding the chain-to-chain transformers produced by
the per-operator `map` helper — produce identical chains: same result
(value or error) and same resolved/deferred state.  (For the empty
list the transformer-folding variant throws a `TypeError` instead of
producing a chain, and for a function input the two variants start
from different chains: `safeValue(input)` wraps the function while
`safe(input)` executes it.) -/
theorem claim3_pipe_variants_agree (input : JSVal) (f : JSVal → Outcome)
    (fs : List (JSVal → Outcome))
    (hv : ∀ src call, input ≠ JSVal.func src call) :
    safePipeV2 ((f :: fs).map pipeMap) input
      = some (safePipeV1 (f :: fs) input) := by
  simp [safePipeV2, safePipeV1, foldl_pipeMap, safe_eq_safeValue input hv, pipeMap]

/-- C3 witness: the amended equivalence at the concrete non-function
input 5 with the single identity transform. -/
theorem claim3_witness :
    safePipeV2 ([fun x => Outcome.ret x].map pipeMap) (JSVal.num 5)
      = some (safePipeV1 [fun x => Outcome.ret x] (JSVal.num 5)) :=
  claim3_pipe_variants_agree (JSVal.num 5) (fun x => Outcome.ret x) []
    (fun _ _ h => JSVal.noConfusion h)

/-- C4: once a chain is in the error state, no callback supplied to any
subsequent `map`, `flatMap`, or `effect` is ever invoked (the
invocation log of the whole sequence is empty), the chain — including
its deferred state — is preserved exactly, and the error observed at
the end of the chain is the same error that was first introduced. -/
theorem claim4_error_short_circuit (m : String) (dfr : Bool) (ops : List ChainOp) :
    (applyOpsT { result := Result.err m, deferred := dfr } ops).1
        = { result := Result.err m, deferred := dfr }
      ∧ (applyOpsT { result := Result.err m, deferred := dfr } ops).2 = []
      ∧ unwrapR (applyOpsT { result := Result.err m, deferred := dfr } ops).1
          = unwrapR { result := Result.err m, deferred := dfr } := by
  refine ⟨?_, ?_, ?_⟩ <;> simp [applyOpsT_err]

/-- C5: for every chain C and every observer callback — including one
that throws or returns a deferred value, and whatever it does to the
result copy it is handed — `C.tap(observer).isOk()` equals `C.isOk()`
and `C.tap(observer).unwrap()` yields the same outcome as
`C.unwrap()`: the same value, or an error with the same message. -/
theorem claim5_tap_preserves_state (c : Chain) (cf : Result → CRun) :
    isOkR (tapT cf c).1 = isOkR c ∧ unwrapR (tapT cf c).1 = unwrapR c := by
  rw [tapT_fst]
  exact ⟨rfl, rfl⟩

/-- C6: `recover(h)` fires only on error — on an Ok chain the handler
is never invoked and the chain (value and deferred state) is unchanged;
on an Err chain the handler is invoked once with the stored error and
the new chain's result is the handler's outcome: its return value, the
settled value of a deferred return, or, when the handler throws or its
return rejects, the resulting normalized error. -/
theorem claim6_recover_fires_only_on_error (h : JSVal → Outcome) (v : JSVal)
    (m : String) (dfr : Bool) :
    recoverT h { result := Result.ok v, deferred := dfr }
        = ({ result := Result.ok v, deferred := dfr }, [])
      ∧ (recoverT h { result := Result.err m, deferred := dfr }).2
          = [CallArg.errArg (JSVal.error m)]
      ∧ (recoverT h { result := Result.err m, deferred := dfr }).1.result
          = outcomeResult (h (JSVal.error m)) := by
  refine ⟨?_, ?_, ?_⟩
  · cases dfr <;> rfl
  · rfl
  · cases dfr
    · cases hy : h (JSVal.error m) with
      | ret u => simp [recoverT, nextT, next, hy, outcomeResult]
      | retD d => cases d <;> simp [recoverT, nextT, next, hy, outcomeResult, settle]
      | thrown e => simp [recoverT, nextT, next, hy, outcomeResult]
    · rfl

/-- C7: `effect(f)` on an Err chain rethrows the stored error without
calling `f`; on an Ok chain it calls `f(value)` exactly once — a plain
return keeps the original value and the chain's deferred state, a
thrown exception from `f` propagates into the chain, and a deferred
return makes the new chain wait for it and then hold the original value
(or the rejection's normalized error), never `f`'s result. -/
theorem claim7_effect (f : JSVal → Outcome) (m : String) (v : JSVal) (dfr : Bool) :
    effectT f { result := Result.err m, deferred := dfr }
        = ({ result := Result.err m, deferred := dfr }, [])
      ∧ (effectT f { result := Result.ok v, deferred := dfr }).2 = [CallArg.val v]
      ∧ (effectT f { result := Result.ok v, deferred := dfr }).1
          = (match f v with
             | Outcome.ret _ => { result := Result.ok v, deferred := dfr }
             | Outcome.thrown e => { result := Result.err (normMsg e), deferred := dfr }
             | Outcome.retD (Deferred.resolves _) =>
                 { result := Result.ok v, deferred := true }
             | Outcome.retD (Deferred.rejects e) =>
                 { result := Result.err (normMsg e), deferred := true }) := by
  refine ⟨?_, rfl, ?_⟩
  · cases dfr <;> rfl
  · cases dfr
    · cases hv : f v with
      | ret u => simp [effectT, nextT, next, hv]
      | retD d => cases d <;> simp [effectT, nextT, next, hv, outcomeResult, settle]
      | thrown e => simp [effectT, nextT, next, hv]
    · cases hv : f v with
      | ret u => simp [effectT, nextT, next, hv, outcomeResult]
      | retD d => cases d <;> simp [effectT, nextT, next, hv, outcomeResult, settle]
      | thrown e => simp [effectT, nextT, next, hv, outcomeResult]

/-- C8: every failure is normalized exactly once when first recorded —
a thrown value that is already an `Error` is stored with its message
unchanged, any other value is wrapped into an error whose message is
its `String(...)` representation, and re-normalizing a stored error
changes nothing; consequently constructing a chain from a function that
throws `ev` makes `isError` yield `true` immediately and `unwrap` raise
an error with the normalized message. -/
theorem claim8_error_normalization (ev : JSVal) (msg s : String) (n : Int) (b : Bool) :
    safeExec (Outcome.thrown ev)
        = { result := Result.err (normMsg ev), deferred := false }
      ∧ isErrorR (safeExec (Outcome.thrown ev)) = TerminalBool.now true
      ∧ unwrapR (safeExec (Outcome.thrown ev))
          = UnwrapR.thrownNow (JSVal.error (normMsg ev))
      ∧ normMsg (JSVal.error msg) = msg
      ∧ normMsg (JSVal.str s) = jsToString (JSVal.str s)
      ∧ normMsg (JSVal.num n) = jsToString (JSVal.num n)
      ∧ normMsg (JSVal.boolean b) = jsToString (JSVal.boolean b)
      ∧ normMsg JSVal.undef = jsToString JSVal.undef
      ∧ normMsg (JSVal.error (normMsg ev)) = normMsg ev := by
  refine ⟨rfl, rfl, rfl, rfl, rfl, rfl, rfl, rfl, rfl⟩

/-- C9: sync-to-async promotion is one-way and exact — if a resolved
chain's operator callback returns a deferred value, the chain produced
by the engine primitive `next` is deferred; any operation on a deferred
chain yields a deferred chain; a resolved chain whose callback does not
return a deferred value yields a resolved chain; and `isOk`, `isError`
and `unwrap` yield awaitable (`later`) results exactly on deferred
chains and immediate results otherwise. -/
theorem claim9_sync_to_async_promotion (c : Chain) (cb : Result → Outcome)
    (d : Deferred) :
    (c.deferred = false → cb c.result = Outcome.retD d → (next c cb).deferred = true)
      ∧ (c.deferred = true → (next c cb).deferred = true)
      ∧ (c.deferred = false → (∀ d2, cb c.result ≠ Outcome.retD d2) →
          (next c cb).deferred = false)
      ∧ (isOkR c).isLaterB = c.deferred
      ∧ (isErrorR c).isLaterB = c.deferred
      ∧ (unwrapR c).isLaterB = c.deferred := by
  refine ⟨?_, ?_, ?_, ?_, ?_, ?_⟩
  · intro hres hcb
    simp [next, hres, hcb]
  · intro hdef
    simp [next, hdef]
  · intro hres hcb
    cases hv : cb c.result with
    | ret u => simp [next, hres, hv]
    | retD d2 => exact absurd hv (hcb d2)
    | thrown e => simp [next, hres, hv]
  · cases hd : c.deferred <;> simp [isOkR, hd, TerminalBool.isLaterB]
  · cases hd : c.deferred <;> simp [isErrorR, hd, TerminalBool.isLaterB]
  · cases hd : c.deferred <;> rcases hr : c.result with v | m <;>
      simp [unwrapR, hd, hr, UnwrapR.isLaterB]

/-- C9 witness: a fully synchronous chain whose callback returns a
deferred value becomes deferred, and one whose callback returns a plain
value stays resolved. -/
theorem claim9_witness :
    (next (safeValue (JSVal.num 2))
        (fun _ => Outcome.retD (Deferred.resolves (JSVal.num 4)))).deferred = true
      ∧ (next (safeValue (JSVal.num 2)) (fun _ => Outcome.ret (JSVal.num 4))).deferred
          = false :=
  ⟨(claim9_sync_to_async_promotion (safeValue (JSVal.num 2))
      (fun _ => Outcome.retD (Deferred.resolves (JSVal.num 4)))
      (Deferred.resolves (JSVal.num 4))).1 rfl rfl,
   (claim9_sync_to_async_promotion (safeValue (JSVal.num 2))
      (fun _ => Outcome.ret (JSVal.num 4))
      (Deferred.resolves (JSVal.num 4))).2.2.1 rfl
      (fun _ h => Outcome.noConfusion h)⟩

/-- C10: the `tap` observer receives a shallow copy of the chain's
result object, so for every chain and every observer — whatever it
turns the copy into (`CRun.objAfter`), whatever it returns or throws —
the chain's stored result is unchanged and the outcomes of all
subsequent operator and terminal calls are unchanged. -/
theorem claim10_tap_copy_frame (c : Chain) (cf : Result → CRun) :
    (tapT cf c).1 = c
      ∧ (tapT cf c).1.result = c.result
      ∧ (∀ ops, (applyOpsT (tapT cf c).1 ops).1 = (applyOpsT c ops).1)
      ∧ isOkR (tapT cf c).1 = isOkR c
      ∧ isErrorR (tapT cf c).1 = isErrorR c
      ∧ unwrapR (tapT cf c).1 = unwrapR c := by
  rw [tapT_fst]
  exact ⟨rfl, rfl, fun ops => rfl, rfl, rfl, rfl⟩

end SfChain
